import Mathlib

/-!
Verification development for the `gloom` repository (`src/main.cpp`), a single
C++ executable that opens an SDL2 window with an OpenGL context, uploads one
hardcoded quad, compiles a fixed shader pair, and redraws every frame until the
user closes the window.

The embedding is a shallow one: the program's global variables become the
fields of `ProgState`; every function of `main.cpp` becomes a Lean function of
the same name that returns its updated state together with the list of
SDL/OpenGL calls it performs (the trace, `List Event`).  The parts of the world
the program observes (SDL initialization results, the file system, shader
compilation results, the event queue) are an explicit environment `Env` and an
explicit schedule of polled event batches.  `std::string` is modelled as
`List Char`; `exit(1)` is modelled with `Except Nat`.  OpenGL name allocation
(`glCreateShader`, `glCreateProgram`, `glGenBuffers`, `glGenVertexArrays`) is
modelled by a counter `nextGLName` handing out the fresh names 1, 2, 3, ….
-/

set_option linter.unusedVariables false

namespace Gloom

/-! ### Numeric values of the OpenGL / SDL constants used by the program -/

def GL_VERTEX_SHADER : Nat := 0x8B31
def GL_FRAGMENT_SHADER : Nat := 0x8B30
def GL_TRIANGLES : Nat := 0x0004
def GL_UNSIGNED_INT : Nat := 0x1405
def GL_FLOAT : Nat := 0x1406
def GL_ARRAY_BUFFER : Nat := 0x8892
def GL_ELEMENT_ARRAY_BUFFER : Nat := 0x8893
def GL_STATIC_DRAW : Nat := 0x88E4
def GL_DEPTH_TEST : Nat := 0x0B71
def GL_CULL_FACE : Nat := 0x0B44
def GL_COLOR_BUFFER_BIT : Nat := 0x4000
def GL_DEPTH_BUFFER_BIT : Nat := 0x0100
def SDL_QUIT : Nat := 0x100
def SDL_WINDOW_OPENGL : Nat := 0x2

/-! ### Program state: the globals of `main.cpp` -/

/-- The global variables of `main.cpp` (all prefixed with `g` in the source).
`nextGLName` is not a C++ global: it models the OpenGL name allocator, which
hands out fresh nonzero object names. -/
structure ProgState where
  gScreenWidth : Int
  gScreenHeight : Int
  gGraphicsApplicationWindow : Option Nat
  gOpenGLContext : Option Nat
  gQuit : Bool
  gGraphicsPipelineShaderProgram : Nat
  gVertexArrayObject : Nat
  gVertexBufferObject : Nat
  gIndexBufferObject : Nat
  nextGLName : Nat

/-- The initial values of the globals: `gScreenWidth = 640`, `gScreenHeight = 480`,
null window and context pointers, `gQuit = false`, all GL object handles `0`. -/
def initialProgState : ProgState :=
  { gScreenWidth := 640
    gScreenHeight := 480
    gGraphicsApplicationWindow := none
    gOpenGLContext := none
    gQuit := false
    gGraphicsPipelineShaderProgram := 0
    gVertexArrayObject := 0
    gVertexBufferObject := 0
    gIndexBufferObject := 0
    nextGLName := 0 }

/-- The external world the program observes: outcomes of the SDL/glad setup
calls, the file system (`none` = file cannot be opened), and the
`GL_COMPILE_STATUS` result (with info log) the driver reports for a shader
of a given type and source. -/
structure Env where
  sdlInitOk : Bool
  windowHandle : Option Nat
  contextHandle : Option Nat
  gladOk : Bool
  fileSystem : String → Option (List Char)
  compileOk : Nat → List Char → Bool
  compileLog : Nat → List Char → String

/-! ### The trace of external calls the program performs -/

/-- One SDL/OpenGL/stdio call performed by the program, in program order.
For the calls whose shader-object argument may be an uninitialized C++
variable, the argument is an `Option Nat` (`none` = the variable was never
assigned). -/
inductive Event where
  | print (msg : String)
  | sdlInit
  | sdlSetAttribute (attr : String) (value : Nat)
  | sdlCreateWindow (title : String) (x y w h : Int) (flags : Nat)
  | sdlGLCreateContext
  | gladLoad
  | getVersionInfo
  | readFile (path : String)
  | glCreateShader (ty : Nat)
  | glShaderSource (shader : Option Nat)
  | glCompileShader (shader : Option Nat)
  | glGetShaderiv (shader : Option Nat)
  | glGetShaderInfoLog (shader : Option Nat)
  | glDeleteShader (shader : Option Nat)
  | glCreateProgram
  | glAttachShader (program : Nat) (shader : Option Nat)
  | glLinkProgram (program : Nat)
  | glValidateProgram (program : Nat)
  | glDetachShader (program : Nat) (shader : Option Nat)
  | glGenVertexArrays (n : Nat)
  | glBindVertexArray (vao : Nat)
  | glGenBuffers (n : Nat)
  | glBindBuffer (target : Nat) (buffer : Nat)
  | glBufferDataF (target : Nat) (sizeBytes : Nat) (data : List Rat) (usage : Nat)
  | glBufferDataU (target : Nat) (sizeBytes : Nat) (data : List Nat) (usage : Nat)
  | glEnableVertexAttribArray (idx : Nat)
  | glVertexAttribPointer (idx comps ty : Nat) (normalized : Bool) (stride offset : Nat)
  | glDisableVertexAttribArray (idx : Nat)
  | glDisable (cap : Nat)
  | glViewport (x y w h : Int)
  | glClearColor (r g b a : Rat)
  | glClear (mask : Nat)
  | glUseProgram (id : Nat)
  | glDrawElements (mode count ty : Nat)
  | sdlPollEvent (polled : Option Nat)
  | sdlGLSwapWindow
  | sdlDestroyWindow
  | sdlQuitCall
  deriving DecidableEq

/-! ### `LoadShaderAsString` (main.cpp lines 97-114) -/

/-- One `std::getline(myFile, line)` call: consumes characters up to and
including the first newline; returns the line (without the newline) and the
remaining stream contents. -/
def splitAtNewline : List Char → List Char × List Char
  | [] => ([], [])
  | c :: cs =>
    if c = '\n' then ([], cs)
    else
      let p := splitAtNewline cs
      (c :: p.1, p.2)

/-- The `while (std::getline(myFile, line)) { result += line + '\n'; }` loop:
`getline` fails exactly when the stream is exhausted. -/
def loadLoop (s : List Char) (res : List Char) : List Char :=
  match s with
  | [] => res
  | c :: cs =>
    loadLoop (splitAtNewline (c :: cs)).2 (res ++ (splitAtNewline (c :: cs)).1 ++ ['\n'])
termination_by s.length
decreasing_by
  have hle : ∀ l : List Char, (splitAtNewline l).2.length ≤ l.length := by
    intro l
    induction l with
    | nil => simp [splitAtNewline]
    | cons a t ih =>
      by_cases ha : a = '\n'
      · simp [splitAtNewline, ha]
      · simp only [splitAtNewline, if_neg ha, List.length_cons]
        exact Nat.le_succ_of_le ih
  simp only [splitAtNewline]
  by_cases hc : c = '\n'
  · simp [hc]
  · simp only [if_neg hc, List.length_cons]
    exact Nat.lt_succ_of_le (hle cs)

/-- `LoadShaderAsString`: returns `result = ""` when the file cannot be opened,
otherwise accumulates each line followed by `'\n'`. -/
def LoadShaderAsString (fileSystem : String → Option (List Char)) (filename : String) :
    List Char :=
  match fileSystem filename with
  | none => []
  | some content => loadLoop content []

/-- Specification-side notion of the lines of a file: split the contents at
every newline character; a trailing newline terminates the last line rather
than starting an empty one. -/
def splitNl : List Char → List (List Char)
  | [] => [[]]
  | c :: cs =>
    if c = '\n' then [] :: splitNl cs
    else
      match splitNl cs with
      | [] => [[c]]
      | l :: ls => (c :: l) :: ls

/-- The lines of a file's contents: newline-separated segments, with the empty
segment after a trailing newline not counting as a line. -/
def fileLines (content : List Char) : List (List Char) :=
  let segs := splitNl content
  if segs.getLast? = some [] then segs.dropLast else segs

/-- Concatenation of a list of lines with exactly one newline character
appended to each line. -/
def concatLines (lines : List (List Char)) : List Char :=
  lines.foldr (fun l acc => l ++ ['\n'] ++ acc) []

/-! ### `CompileShader` (lines 126-179) and `CreateShaderProgram` (lines 188-215) -/

/-- `CompileShader`: the local `GLuint shaderObject` is assigned only in the
`GL_VERTEX_SHADER` and `GL_FRAGMENT_SHADER` branches, so it is modelled as an
`Option Nat` that stays `none` (uninitialized) for any other type.  Returns
(the returned `GLuint`, the updated name allocator, the trace).  On a failed
compilation the source prints the info log, deletes the shader and returns the
literal `0`. -/
def CompileShader (env : Env) (alloc : Nat) (ty : Nat) (source : List Char) :
    Option Nat × Nat × List Event :=
  let shaderObject : Option Nat :=
    if ty = GL_VERTEX_SHADER then some (alloc + 1)
    else if ty = GL_FRAGMENT_SHADER then some (alloc + 1)
    else none
  let alloc1 := if shaderObject.isSome then alloc + 1 else alloc
  let createT : List Event := if shaderObject.isSome then [Event.glCreateShader ty] else []
  let t1 := createT ++
    [Event.glShaderSource shaderObject, Event.glCompileShader shaderObject,
     Event.glGetShaderiv shaderObject]
  if env.compileOk ty source then
    (shaderObject, alloc1, t1)
  else
    let failMsg : List Event :=
      if ty = GL_VERTEX_SHADER then
        [Event.print ("ERROR: GL_VERTEX_SHADER compilation failed!\n" ++
          env.compileLog ty source ++ "\n")]
      else if ty = GL_FRAGMENT_SHADER then
        [Event.print ("ERROR: GL_FRAGMENT_SHADER compilation failed!\n" ++
          env.compileLog ty source ++ "\n")]
      else []
    (some 0, alloc1,
      t1 ++ [Event.glGetShaderiv shaderObject, Event.glGetShaderInfoLog shaderObject] ++
        failMsg ++ [Event.glDeleteShader shaderObject])

/-- `CreateShaderProgram`: creates a program object, compiles the vertex and
fragment shaders, attaches and links them, then detaches and deletes the
individual shaders.  Returns (program object, updated allocator, trace). -/
def CreateShaderProgram (env : Env) (alloc : Nat) (vsrc fsrc : List Char) :
    Nat × Nat × List Event :=
  let programObject := alloc + 1
  let v := CompileShader env programObject GL_VERTEX_SHADER vsrc
  let f := CompileShader env v.2.1 GL_FRAGMENT_SHADER fsrc
  (programObject, f.2.1,
    Event.glCreateProgram :: v.2.2 ++ f.2.2 ++
    [Event.glAttachShader programObject v.1,
     Event.glAttachShader programObject f.1,
     Event.glLinkProgram programObject,
     Event.glValidateProgram programObject,
     Event.glDetachShader programObject v.1,
     Event.glDetachShader programObject f.1,
     Event.glDeleteShader v.1,
     Event.glDeleteShader f.1])

/-- `CreateGraphicsPipeline` (lines 222-227): loads the two fixed shader files
and stores the linked program in `gGraphicsPipelineShaderProgram`. -/
def CreateGraphicsPipeline (env : Env) (s : ProgState) : ProgState × List Event :=
  let vertexShaderSource := LoadShaderAsString env.fileSystem "./shaders/vert.glsl"
  let fragmentShaderSource := LoadShaderAsString env.fileSystem "./shaders/frag.glsl"
  let r := CreateShaderProgram env s.nextGLName vertexShaderSource fragmentShaderSource
  ({ s with gGraphicsPipelineShaderProgram := r.1, nextGLName := r.2.1 },
   [Event.readFile "./shaders/vert.glsl", Event.readFile "./shaders/frag.glsl"] ++ r.2.2)

/-! ### `VertexSpecification` (lines 232-323) -/

/-- The hardcoded `vertexData` vector: four vertices, each three position
components followed by three color components (`GLfloat`s, modelled as exact
rationals). -/
def vertexData : List Rat :=
  [ -1/2, -1/2, 0,
     1,    0,   0,
     1/2, -1/2, 0,
     0,    1,   0,
    -1/2,  1/2, 0,
     0,    0,   1,
     1/2,  1/2, 0,
     0,    1,   0 ]

/-- The hardcoded `indexBufferData` vector. -/
def indexBufferData : List Nat := [2, 0, 1, 3, 2, 1]

/-- `VertexSpecification`: generates and fills the VAO, VBO and IBO and sets up
the two vertex attributes (stride `sizeof(GLfloat)*6 = 24` bytes; attribute 0
at offset 0, attribute 1 at offset `sizeof(GLfloat)*3 = 12`). -/
def VertexSpecification (s : ProgState) : ProgState × List Event :=
  let vao := s.nextGLName + 1
  let vbo := s.nextGLName + 2
  let ibo := s.nextGLName + 3
  ({ s with gVertexArrayObject := vao, gVertexBufferObject := vbo,
            gIndexBufferObject := ibo, nextGLName := s.nextGLName + 3 },
   [Event.glGenVertexArrays 1,
    Event.glBindVertexArray vao,
    Event.glGenBuffers 1,
    Event.glBindBuffer GL_ARRAY_BUFFER vbo,
    Event.glBufferDataF GL_ARRAY_BUFFER (vertexData.length * 4) vertexData GL_STATIC_DRAW,
    Event.glGenBuffers 1,
    Event.glBindBuffer GL_ELEMENT_ARRAY_BUFFER ibo,
    Event.glBufferDataU GL_ELEMENT_ARRAY_BUFFER (indexBufferData.length * 4) indexBufferData
      GL_STATIC_DRAW,
    Event.glEnableVertexAttribArray 0,
    Event.glVertexAttribPointer 0 3 GL_FLOAT false 24 0,
    Event.glEnableVertexAttribArray 1,
    Event.glVertexAttribPointer 1 3 GL_FLOAT false 24 12,
    Event.glBindVertexArray 0,
    Event.glDisableVertexAttribArray 0,
    Event.glDisableVertexAttribArray 1])

/-! ### `InitializeProgram` (lines 331-376) -/

/-- `InitializeProgram`: SDL video init, GL attributes, window, context, glad.
Each failure prints a message and calls `exit(1)`, modelled as `Except.error 1`. -/
def InitializeProgram (env : Env) (s : ProgState) : Except Nat ProgState × List Event :=
  let t0 : List Event := [Event.sdlInit]
  if env.sdlInitOk = false then
    (Except.error 1, t0 ++ [Event.print "SDL2 could not initialize video subsystem"])
  else
    let t1 := t0 ++
      [Event.sdlSetAttribute "SDL_GL_CONTEXT_MAJOR_VERSION" 4,
       Event.sdlSetAttribute "SDL_GL_CONTEXT_MINOR_VERSION" 1,
       Event.sdlSetAttribute "SDL_GL_CONTEXT_PROFILE_MASK" 1,
       Event.sdlSetAttribute "SDL_GL_DOUBLEBUFFER" 1,
       Event.sdlSetAttribute "SDL_GL_DEPTH_SIZE" 2,
       Event.sdlCreateWindow "OpenGL Window" 0 0 s.gScreenWidth s.gScreenHeight
         SDL_WINDOW_OPENGL]
    let s1 := { s with gGraphicsApplicationWindow := env.windowHandle }
    match env.windowHandle with
    | none => (Except.error 1, t1 ++ [Event.print "SDL Window was not able to be created"])
    | some _ =>
      let t2 := t1 ++ [Event.sdlGLCreateContext]
      let s2 := { s1 with gOpenGLContext := env.contextHandle }
      match env.contextHandle with
      | none => (Except.error 1, t2 ++ [Event.print "OpenGL context could not be created"])
      | some _ =>
        let t3 := t2 ++ [Event.gladLoad]
        if env.gladOk = false then
          (Except.error 1, t3 ++ [Event.print "glad was not initialized"])
        else
          (Except.ok s2, t3 ++ [Event.getVersionInfo])

/-! ### `Input` (lines 383-400), `PreDraw` (408-425), `Draw` (434-449) -/

/-- `Input`: drains the SDL event queue (`SDL_PollEvent` until it returns 0);
every `SDL_QUIT` event prints "Goodbye!" and sets `gQuit = true`.  The batch is
the list of event type codes the queue delivers this iteration. -/
def Input : List Nat → ProgState → ProgState × List Event
  | [], s => (s, [Event.sdlPollEvent none])
  | t :: rest, s =>
    let step : ProgState × List Event :=
      if t = SDL_QUIT then ({ s with gQuit := true }, [Event.print "Goodbye!"])
      else (s, [])
    let r := Input rest step.1
    (r.1, Event.sdlPollEvent (some t) :: (step.2 ++ r.2))

/-- `PreDraw`: disables depth test and culling, sets the viewport and clear
color, clears the framebuffer, and binds the shader program. -/
def PreDraw (s : ProgState) : List Event :=
  [Event.glDisable GL_DEPTH_TEST,
   Event.glDisable GL_CULL_FACE,
   Event.glViewport 0 0 s.gScreenWidth s.gScreenHeight,
   Event.glClearColor (3/100) (5/100) (27/100) 1,
   Event.glClear (GL_DEPTH_BUFFER_BIT ||| GL_COLOR_BUFFER_BIT),
   Event.glUseProgram s.gGraphicsPipelineShaderProgram]

/-- `Draw`: binds the VAO and VBO, issues the single indexed draw call, and
unbinds the program. -/
def Draw (s : ProgState) : List Event :=
  [Event.glBindVertexArray s.gVertexArrayObject,
   Event.glBindBuffer GL_ARRAY_BUFFER s.gVertexBufferObject,
   Event.glDrawElements GL_TRIANGLES 6 GL_UNSIGNED_INT,
   Event.glUseProgram 0]

/-! ### `MainLoop` (lines 457-471), `CleanUp` (473-477), `main` (483-503) -/

/-- `MainLoop`: `while (!gQuit) { Input(); PreDraw(); Draw(); SDL_GL_SwapWindow; }`.
The schedule lists, for each iteration, the batch of event type codes
`SDL_PollEvent` delivers in that iteration; the model simulates the loop for at
most `sched.length` iterations (an exhausted schedule means we stop observing a
still-running loop, so `gQuit = true` in the final state exactly when the loop
has exited). -/
def MainLoop : List (List Nat) → ProgState → ProgState × List Event
  | [], s => (s, [])
  | batch :: rest, s =>
    if s.gQuit then (s, [])
    else
      let p := Input batch s
      let q := MainLoop rest p.1
      (q.1, p.2 ++ PreDraw p.1 ++ Draw p.1 ++ [Event.sdlGLSwapWindow] ++ q.2)

/-- `CleanUp`: destroys the window and quits SDL; no global is written. -/
def CleanUp (s : ProgState) : ProgState × List Event :=
  (s, [Event.sdlDestroyWindow, Event.sdlQuitCall])

/-- `main`: the five phases in source order; returns the exit status together
with the final state and the full trace. -/
def main (env : Env) (sched : List (List Nat)) :
    Except Nat (Nat × ProgState) × List Event :=
  match InitializeProgram env initialProgState with
  | (Except.error code, t1) => (Except.error code, t1)
  | (Except.ok s1, t1) =>
    let v := VertexSpecification s1
    let g := CreateGraphicsPipeline env v.1
    let m := MainLoop sched g.1
    let c := CleanUp m.1
    (Except.ok (0, c.1), t1 ++ v.2 ++ g.2 ++ m.2 ++ c.2)

/-! ### Event classification predicates used by the theorems -/

def isVertexUploadEvent : Event → Bool
  | Event.glBufferDataF _ _ _ _ => true
  | _ => false

def isIndexUploadEvent : Event → Bool
  | Event.glBufferDataU _ _ _ _ => true
  | _ => false

def isUploadEvent (e : Event) : Bool :=
  isVertexUploadEvent e || isIndexUploadEvent e

def isLinkEvent : Event → Bool
  | Event.glLinkProgram _ => true
  | _ => false

def isDrawEvent : Event → Bool
  | Event.glDrawElements _ _ _ => true
  | _ => false

def isSdlInitEvent : Event → Bool
  | Event.sdlInit => true
  | _ => false

def isTeardownEvent : Event → Bool
  | Event.sdlDestroyWindow => true
  | Event.sdlQuitCall => true
  | _ => false

def isReadFileEvent : Event → Bool
  | Event.readFile _ => true
  | _ => false

/-- Events that can only be produced inside the render loop body
(`Input`, `PreDraw`, `Draw`, the buffer swap). -/
def isLoopEvent : Event → Bool
  | Event.sdlPollEvent _ => true
  | Event.print _ => true
  | Event.glDisable _ => true
  | Event.glViewport _ _ _ _ => true
  | Event.glClearColor _ _ _ _ => true
  | Event.glClear _ => true
  | Event.glUseProgram _ => true
  | Event.glBindVertexArray _ => true
  | Event.glBindBuffer _ _ => true
  | Event.glDrawElements _ _ _ => true
  | Event.sdlGLSwapWindow => true
  | _ => false

/-- Setup and teardown event classes, combined (used to show the loop performs
none of them). -/
def isSetupOrTeardownEvent (e : Event) : Bool :=
  isSdlInitEvent e || isUploadEvent e || isLinkEvent e || isTeardownEvent e || isReadFileEvent e

/-- A GL call reading the `shaderObject` variable of `CompileShader` while it
is still uninitialized. -/
def usesUninitHandle : Event → Bool
  | Event.glShaderSource none => true
  | Event.glCompileShader none => true
  | Event.glGetShaderiv none => true
  | Event.glGetShaderInfoLog none => true
  | Event.glDeleteShader none => true
  | Event.glAttachShader _ none => true
  | Event.glDetachShader _ none => true
  | _ => false

/-- The value returned by an `SDL_PollEvent` call in the trace
(`some t` = an event with type code `t` was dequeued, `none` = queue empty). -/
def pollReturn : Event → Option (Option Nat)
  | Event.sdlPollEvent o => some o
  | _ => none

/-- An environment in which all initialization steps succeed. -/
def envOk (env : Env) : Prop :=
  env.sdlInitOk = true ∧ env.gladOk = true ∧
  env.windowHandle.isSome = true ∧ env.contextHandle.isSome = true

/-! ### Concrete inputs used by witnesses and counterexamples -/

/-- A concrete fully-successful environment. -/
def envDemo : Env :=
  { sdlInitOk := true
    windowHandle := some 1
    contextHandle := some 1
    gladOk := true
    fileSystem := fun _ => none
    compileOk := fun _ _ => true
    compileLog := fun _ _ => "" }

/-- A concrete environment in which `SDL_Init` fails. -/
def envSdlFail : Env :=
  { envDemo with sdlInitOk := false }

/-- The concrete program state at entry to the render loop under `envDemo`. -/
def sDemo : ProgState :=
  { gScreenWidth := 640
    gScreenHeight := 480
    gGraphicsApplicationWindow := some 1
    gOpenGLContext := some 1
    gQuit := false
    gGraphicsPipelineShaderProgram := 4
    gVertexArrayObject := 1
    gVertexBufferObject := 2
    gIndexBufferObject := 3
    nextGLName := 6 }

/-- `sDemo` with the quit flag already set. -/
def sDemoQuit : ProgState :=
  { sDemo with gQuit := true }

/-- A concrete file system with one readable file. -/
def fsDemo : String → Option (List Char) :=
  fun n => if n = "./shaders/vert.glsl" then some ['x', '\n'] else none

/-! ### Derived states and traces of the successful initialization path -/

/-- The program state after a successful `InitializeProgram`. -/
def okState (env : Env) : ProgState :=
  { initialProgState with
      gGraphicsApplicationWindow := env.windowHandle
      gOpenGLContext := env.contextHandle }

/-- The program state at entry to `MainLoop` after a successful setup:
the allocator hands out VAO = 1, VBO = 2, IBO = 3, then program object = 4
and the two shader objects 5 and 6. -/
def loopEntryState (env : Env) : ProgState :=
  { okState env with
      gVertexArrayObject := 1
      gVertexBufferObject := 2
      gIndexBufferObject := 3
      gGraphicsPipelineShaderProgram := 4
      nextGLName := 6 }

/-- The trace of a successful `InitializeProgram`. -/
def initOkTrace : List Event :=
  [Event.sdlInit,
   Event.sdlSetAttribute "SDL_GL_CONTEXT_MAJOR_VERSION" 4,
   Event.sdlSetAttribute "SDL_GL_CONTEXT_MINOR_VERSION" 1,
   Event.sdlSetAttribute "SDL_GL_CONTEXT_PROFILE_MASK" 1,
   Event.sdlSetAttribute "SDL_GL_DOUBLEBUFFER" 1,
   Event.sdlSetAttribute "SDL_GL_DEPTH_SIZE" 2,
   Event.sdlCreateWindow "OpenGL Window" 0 0 640 480 SDL_WINDOW_OPENGL,
   Event.sdlGLCreateContext,
   Event.gladLoad,
   Event.getVersionInfo]

/-- The number of loop iterations executed on a schedule: every batch up to and
including the first batch containing an `SDL_QUIT` event starts an iteration. -/
def itersRun : List (List Nat) → Nat
  | [] => 0
  | batch :: rest => 1 + (if SDL_QUIT ∈ batch then 0 else itersRun rest)

def isUseProgramEvent : Event → Bool
  | Event.glUseProgram _ => true
  | _ => false

/-! ### Statement forms of the larger claims -/

/-- The run decomposes into five consecutive phases: initialization (the one
`SDL_Init`), buffer upload (the one vertex upload and the one index upload),
shader compilation/linking (the one `glLinkProgram`), the render loop (no
setup or teardown calls), and teardown (`SDL_DestroyWindow` then `SDL_Quit`,
nothing after); no phase's characteristic calls occur in any other phase, and
the run returns exit status 0. -/
def phaseDecomposition (res : Except Nat (Nat × ProgState) × List Event) : Prop :=
  ∃ t1 t2 t3 t4 t5 r,
    res = (Except.ok (0, r), t1 ++ t2 ++ t3 ++ t4 ++ t5) ∧
    List.countP isSdlInitEvent t1 = 1 ∧
    List.countP isUploadEvent t1 = 0 ∧ List.countP isLinkEvent t1 = 0 ∧
    List.countP isDrawEvent t1 = 0 ∧ List.countP isTeardownEvent t1 = 0 ∧
    List.countP isVertexUploadEvent t2 = 1 ∧ List.countP isIndexUploadEvent t2 = 1 ∧
    List.countP isSdlInitEvent t2 = 0 ∧ List.countP isLinkEvent t2 = 0 ∧
    List.countP isDrawEvent t2 = 0 ∧ List.countP isTeardownEvent t2 = 0 ∧
    List.countP isLinkEvent t3 = 1 ∧
    List.countP isSdlInitEvent t3 = 0 ∧ List.countP isUploadEvent t3 = 0 ∧
    List.countP isDrawEvent t3 = 0 ∧ List.countP isTeardownEvent t3 = 0 ∧
    List.countP isSdlInitEvent t4 = 0 ∧ List.countP isUploadEvent t4 = 0 ∧
    List.countP isLinkEvent t4 = 0 ∧ List.countP isTeardownEvent t4 = 0 ∧
    t5 = [Event.sdlDestroyWindow, Event.sdlQuitCall]

/-- The geometry is the fixed hardcoded quad: 4 vertices of 6 floats
(attribute 0 = 3 position components at byte offset 0, attribute 1 = 3 color
components at byte offset 12, stride 24 bytes), the fixed index list
`2 0 1 3 2 1` with every index below 4, the uploads in the trace are exactly
these two constant buffers, and every draw call in the trace is
`glDrawElements(GL_TRIANGLES, 6, GL_UNSIGNED_INT, 0)`. -/
def fixedGeometry (res : Except Nat (Nat × ProgState) × List Event) : Prop :=
  vertexData.length = 6 * 4 ∧
  indexBufferData = [2, 0, 1, 3, 2, 1] ∧
  (∀ i ∈ indexBufferData, i < 4) ∧
  res.2.filter isUploadEvent =
    [Event.glBufferDataF GL_ARRAY_BUFFER (vertexData.length * 4) vertexData GL_STATIC_DRAW,
     Event.glBufferDataU GL_ELEMENT_ARRAY_BUFFER (indexBufferData.length * 4) indexBufferData
       GL_STATIC_DRAW] ∧
  Event.glVertexAttribPointer 0 3 GL_FLOAT false 24 0 ∈ res.2 ∧
  Event.glVertexAttribPointer 1 3 GL_FLOAT false 24 12 ∈ res.2 ∧
  (∀ e ∈ res.2, isDrawEvent e = true → e = Event.glDrawElements GL_TRIANGLES 6 GL_UNSIGNED_INT)

/-- The shader pair is fixed: the only file reads are the two constant paths
(in order), linking happens exactly once and before any draw call, the linked
program object is 4, the global pipeline handle holds 4 at exit, and every
frame binds program 4 exactly once. -/
def fixedShaders (sched : List (List Nat)) (res : Except Nat (Nat × ProgState) × List Event) :
    Prop :=
  res.2.filter isReadFileEvent =
    [Event.readFile "./shaders/vert.glsl", Event.readFile "./shaders/frag.glsl"] ∧
  List.countP isLinkEvent res.2 = 1 ∧
  (∃ pre post, res.2 = pre ++ post ∧ List.countP isLinkEvent pre = 1 ∧
    List.countP isDrawEvent pre = 0 ∧ List.countP isLinkEvent post = 0) ∧
  Event.glLinkProgram 4 ∈ res.2 ∧
  List.countP (fun e => e == Event.glUseProgram 4) res.2 = itersRun sched ∧
  (∀ r, res.1 = Except.ok (0, r) → r.gGraphicsPipelineShaderProgram = 4)

/-- Teardown is exactly `SDL_DestroyWindow` followed by `SDL_Quit` at the very
end of the trace, `CleanUp` writes no global, the final state still holds the
four GPU object handles and the window/context handles established during
setup, and `main` returns 0. -/
def teardownUnchanged (env : Env) (res : Except Nat (Nat × ProgState) × List Event) : Prop :=
  (∀ s, (CleanUp s).1 = s) ∧
  ∃ fS t0,
    res = (Except.ok (0, fS), t0 ++ [Event.sdlDestroyWindow, Event.sdlQuitCall]) ∧
    List.countP isTeardownEvent t0 = 0 ∧
    fS.gVertexArrayObject = 1 ∧ fS.gVertexBufferObject = 2 ∧ fS.gIndexBufferObject = 3 ∧
    fS.gGraphicsPipelineShaderProgram = 4 ∧
    fS.gGraphicsApplicationWindow = env.windowHandle ∧
    fS.gOpenGLContext = env.contextHandle

/-! ## Helper lemmas about `Input` and `MainLoop` -/

theorem Input_fst (batch : List Nat) (s : ProgState) :
    (Input batch s).1 = { s with gQuit := s.gQuit || decide (SDL_QUIT ∈ batch) } := by
  induction batch generalizing s with
  | nil => simp [Input]
  | cons t rest ih =>
    by_cases ht : t = SDL_QUIT
    · simp [Input, ht, ih, List.mem_cons]
    · simp [Input, ht, ih, List.mem_cons, Ne.symm ht]

theorem Input_mem (batch : List Nat) (s : ProgState) (e : Event)
    (he : e ∈ (Input batch s).2) :
    (∃ o, e = Event.sdlPollEvent o) ∨ e = Event.print "Goodbye!" := by
  induction batch generalizing s with
  | nil =>
    simp [Input] at he
    exact Or.inl ⟨none, he⟩
  | cons t rest ih =>
    by_cases ht : t = SDL_QUIT
    · simp only [Input, ht, if_pos rfl, ite_true, List.mem_cons, List.mem_append,
        List.mem_singleton, List.cons_append, List.nil_append] at he
      rcases he with he | he | he
      · exact Or.inl ⟨some SDL_QUIT, he⟩
      · exact Or.inr he
      · exact ih _ he
    · simp only [Input, if_neg ht, List.mem_cons, List.nil_append] at he
      rcases he with he | he
      · exact Or.inl ⟨some t, he⟩
      · exact ih _ he

theorem Input_polls (batch : List Nat) (s : ProgState) :
    (Input batch s).2.filterMap pollReturn = batch.map some ++ [none] := by
  induction batch generalizing s with
  | nil => simp [Input, pollReturn]
  | cons t rest ih =>
    by_cases ht : t = SDL_QUIT <;>
      simp [Input, ht, pollReturn, ih, List.filterMap_cons]

theorem Input_countP_zero (p : Event → Bool)
    (hpoll : ∀ o, p (Event.sdlPollEvent o) = false)
    (hprint : ∀ m, p (Event.print m) = false)
    (batch : List Nat) (s : ProgState) :
    List.countP p (Input batch s).2 = 0 := by
  refine List.countP_eq_zero.mpr ?_
  intro e he hp
  rcases Input_mem batch s e he with ⟨o, rfl⟩ | rfl
  · rw [hpoll o] at hp; cases hp
  · rw [hprint _] at hp; cases hp

theorem MainLoop_stopped (sched : List (List Nat)) (s : ProgState) (h : s.gQuit = true) :
    MainLoop sched s = (s, []) := by
  cases sched <;> simp [MainLoop, h]

theorem MainLoop_state (sched : List (List Nat)) (s : ProgState) :
    ∃ q, (MainLoop sched s).1 = { s with gQuit := q } := by
  induction sched generalizing s with
  | nil => exact ⟨s.gQuit, rfl⟩
  | cons b rest ih =>
    by_cases hq : s.gQuit
    · refine ⟨true, ?_⟩
      rw [MainLoop_stopped _ _ hq, ← hq]
    · obtain ⟨q2, h2⟩ := ih (Input b s).1
      refine ⟨q2, ?_⟩
      simp only [MainLoop, if_neg hq]
      rw [h2, Input_fst]

theorem MainLoop_mem (sched : List (List Nat)) (s : ProgState) (e : Event)
    (he : e ∈ (MainLoop sched s).2) :
    isLoopEvent e = true ∧
      (isDrawEvent e = true → e = Event.glDrawElements GL_TRIANGLES 6 GL_UNSIGNED_INT) := by
  induction sched generalizing s with
  | nil => simp [MainLoop] at he
  | cons b rest ih =>
    by_cases hq : s.gQuit
    · simp [MainLoop, hq] at he
    · simp only [MainLoop, if_neg hq, List.mem_append] at he
      rcases he with (((hin | hpre) | hdr) | hsw) | hrest
      · rcases Input_mem b s e hin with ⟨o, rfl⟩ | rfl <;>
          simp [isLoopEvent, isDrawEvent]
      · simp only [PreDraw, List.mem_cons, List.not_mem_nil, or_false] at hpre
        rcases hpre with rfl | rfl | rfl | rfl | rfl | rfl <;>
          simp [isLoopEvent, isDrawEvent]
      · simp only [Draw, List.mem_cons, List.not_mem_nil, or_false] at hdr
        rcases hdr with rfl | rfl | rfl | rfl <;>
          simp [isLoopEvent, isDrawEvent]
      · simp only [List.mem_singleton] at hsw
        subst hsw
        simp [isLoopEvent, isDrawEvent]
      · exact ih _ hrest

theorem loopEvent_not_setup (e : Event) (h : isLoopEvent e = true) :
    isSetupOrTeardownEvent e = false := by
  cases e <;> simp_all [isLoopEvent, isSetupOrTeardownEvent, isSdlInitEvent, isUploadEvent,
    isVertexUploadEvent, isIndexUploadEvent, isLinkEvent, isTeardownEvent, isReadFileEvent]

theorem MainLoop_countP_setup (sched : List (List Nat)) (s : ProgState) :
    List.countP isSetupOrTeardownEvent (MainLoop sched s).2 = 0 := by
  refine List.countP_eq_zero.mpr ?_
  intro e he hp
  rw [loopEvent_not_setup e (MainLoop_mem sched s e he).1] at hp
  cases hp

theorem countP_zero_of_setup_zero {l : List Event} (p : Event → Bool)
    (himp : ∀ e : Event, p e = true → isSetupOrTeardownEvent e = true)
    (hz : List.countP isSetupOrTeardownEvent l = 0) : List.countP p l = 0 :=
  Nat.le_zero.mp (hz ▸ List.countP_mono_left (fun x _ hx => himp x hx))

theorem sdlInit_imp_setup (e : Event) (h : isSdlInitEvent e = true) :
    isSetupOrTeardownEvent e = true := by
  simp [isSetupOrTeardownEvent, h]

theorem upload_imp_setup (e : Event) (h : isUploadEvent e = true) :
    isSetupOrTeardownEvent e = true := by
  simp [isSetupOrTeardownEvent, h]

theorem link_imp_setup (e : Event) (h : isLinkEvent e = true) :
    isSetupOrTeardownEvent e = true := by
  simp [isSetupOrTeardownEvent, h]

theorem teardown_imp_setup (e : Event) (h : isTeardownEvent e = true) :
    isSetupOrTeardownEvent e = true := by
  simp [isSetupOrTeardownEvent, h]

theorem readFile_imp_setup (e : Event) (h : isReadFileEvent e = true) :
    isSetupOrTeardownEvent e = true := by
  simp [isSetupOrTeardownEvent, h]

theorem MainLoop_draw_count (sched : List (List Nat)) (s : ProgState) (h : s.gQuit = false) :
    List.countP isDrawEvent (MainLoop sched s).2 = itersRun sched := by
  induction sched generalizing s with
  | nil => simp [MainLoop, itersRun]
  | cons b rest ih =>
    have hq : ¬ (s.gQuit = true) := by simp [h]
    have h1 : List.countP isDrawEvent (Input b s).2 = 0 :=
      Input_countP_zero _ (fun o => rfl) (fun m => rfl) b s
    have h2 : List.countP isDrawEvent (PreDraw (Input b s).1) = 0 := by
      simp [PreDraw, List.countP_cons, isDrawEvent]
    have h3 : List.countP isDrawEvent (Draw (Input b s).1) = 1 := by
      simp [Draw, List.countP_cons, isDrawEvent]
    simp only [MainLoop, if_neg hq, List.countP_append]
    by_cases hb : SDL_QUIT ∈ b
    · have hq1 : (Input b s).1.gQuit = true := by simp [Input_fst, h, hb]
      rw [MainLoop_stopped rest _ hq1]
      simp [h1, h2, h3, itersRun, hb, isDrawEvent]
    · have hq1 : (Input b s).1.gQuit = false := by simp [Input_fst, h, hb]
      rw [ih _ hq1]
      simp only [h1, h2, h3, itersRun, if_neg hb]
      simp [isDrawEvent]

theorem MainLoop_quit_iff (sched : List (List Nat)) (s : ProgState) (h : s.gQuit = false) :
    ((MainLoop sched s).1.gQuit = true ↔ ∃ b ∈ sched, SDL_QUIT ∈ b) := by
  induction sched generalizing s with
  | nil => simp [MainLoop, h]
  | cons b rest ih =>
    have hq : ¬ (s.gQuit = true) := by simp [h]
    simp only [MainLoop, if_neg hq]
    by_cases hb : SDL_QUIT ∈ b
    · have hq1 : (Input b s).1.gQuit = true := by simp [Input_fst, h, hb]
      rw [MainLoop_stopped rest _ hq1]
      simp only [hq1, true_iff]
      exact ⟨b, List.mem_cons_self b rest, hb⟩
    · have hq1 : (Input b s).1.gQuit = false := by simp [Input_fst, h, hb]
      rw [ih _ hq1]
      constructor
      · rintro ⟨x, hx, hqx⟩
        exact ⟨x, List.mem_cons_of_mem b hx, hqx⟩
      · rintro ⟨x, hx, hqx⟩
        rcases List.mem_cons.mp hx with rfl | hx2
        · exact absurd hqx hb
        · exact ⟨x, hx2, hqx⟩

theorem MainLoop_useProgram_count (sched : List (List Nat)) (s : ProgState) (pid : Nat)
    (h : s.gQuit = false) (hp : s.gGraphicsPipelineShaderProgram = pid) (hp0 : pid ≠ 0) :
    List.countP (fun e => e == Event.glUseProgram pid) (MainLoop sched s).2 =
      itersRun sched := by
  induction sched generalizing s with
  | nil => simp [MainLoop, itersRun]
  | cons b rest ih =>
    have hq : ¬ (s.gQuit = true) := by simp [h]
    have hpre : (Input b s).1.gGraphicsPipelineShaderProgram = pid := by
      simp [Input_fst, hp]
    have h1 : List.countP (fun e => e == Event.glUseProgram pid) (Input b s).2 = 0 :=
      Input_countP_zero _ (fun o => by simp) (fun m => by simp) b s
    have h2 : List.countP (fun e => e == Event.glUseProgram pid) (PreDraw (Input b s).1) = 1 := by
      simp [PreDraw, List.countP_cons, hpre]
    have h3 : List.countP (fun e => e == Event.glUseProgram pid) (Draw (Input b s).1) = 0 := by
      simp [Draw, List.countP_cons, Ne.symm hp0]
    simp only [MainLoop, if_neg hq, List.countP_append]
    by_cases hb : SDL_QUIT ∈ b
    · have hq1 : (Input b s).1.gQuit = true := by simp [Input_fst, h, hb]
      rw [MainLoop_stopped rest _ hq1]
      simp [h1, h2, h3, itersRun, hb]
    · have hq1 : (Input b s).1.gQuit = false := by simp [Input_fst, h, hb]
      rw [ih _ hq1]
      simp only [h1, h2, h3, itersRun, if_neg hb]
      simp
      omega

/-! ## Helper lemmas about the setup functions -/

theorem CompileShader_counts (env : Env) (alloc ty : Nat) (src : List Char) :
    List.countP isLinkEvent (CompileShader env alloc ty src).2.2 = 0 ∧
    List.countP isUploadEvent (CompileShader env alloc ty src).2.2 = 0 ∧
    List.countP isSdlInitEvent (CompileShader env alloc ty src).2.2 = 0 ∧
    List.countP isTeardownEvent (CompileShader env alloc ty src).2.2 = 0 ∧
    List.countP isDrawEvent (CompileShader env alloc ty src).2.2 = 0 ∧
    List.countP isReadFileEvent (CompileShader env alloc ty src).2.2 = 0 ∧
    List.countP isUseProgramEvent (CompileShader env alloc ty src).2.2 = 0 := by
  simp only [CompileShader]
  split_ifs <;>
    simp [List.countP_cons, List.countP_append, isLinkEvent, isUploadEvent,
      isVertexUploadEvent, isIndexUploadEvent, isSdlInitEvent, isTeardownEvent,
      isDrawEvent, isReadFileEvent, isUseProgramEvent]

theorem CompileShader_result (env : Env) (alloc : Nat) (ty : Nat) (src : List Char)
    (h : ty = GL_VERTEX_SHADER ∨ ty = GL_FRAGMENT_SHADER) :
    ∃ n, (CompileShader env alloc ty src).1 = some n := by
  rcases h with rfl | rfl
  · by_cases hc : env.compileOk GL_VERTEX_SHADER src <;>
      simp [CompileShader, hc]
  · have hne : ¬ (GL_FRAGMENT_SHADER = GL_VERTEX_SHADER) := by decide
    by_cases hc : env.compileOk GL_FRAGMENT_SHADER src <;>
      simp [CompileShader, hc, hne]

theorem CompileShader_alloc_vert (env : Env) (alloc : Nat) (src : List Char) :
    (CompileShader env alloc GL_VERTEX_SHADER src).2.1 = alloc + 1 := by
  by_cases hc : env.compileOk GL_VERTEX_SHADER src <;> simp [CompileShader, hc]

theorem CompileShader_alloc_frag (env : Env) (alloc : Nat) (src : List Char) :
    (CompileShader env alloc GL_FRAGMENT_SHADER src).2.1 = alloc + 1 := by
  have hne : ¬ (GL_FRAGMENT_SHADER = GL_VERTEX_SHADER) := by decide
  by_cases hc : env.compileOk GL_FRAGMENT_SHADER src <;>
    simp [CompileShader, hc, hne]

theorem CompileShader_uninit (env : Env) (alloc : Nat) (ty : Nat) (src : List Char)
    (h : ty = GL_VERTEX_SHADER ∨ ty = GL_FRAGMENT_SHADER) :
    List.countP usesUninitHandle (CompileShader env alloc ty src).2.2 = 0 := by
  rcases h with rfl | rfl
  · by_cases hc : env.compileOk GL_VERTEX_SHADER src <;>
      simp [CompileShader, hc, usesUninitHandle, List.countP_cons, List.countP_append]
  · have hne : ¬ (GL_FRAGMENT_SHADER = GL_VERTEX_SHADER) := by decide
    by_cases hc : env.compileOk GL_FRAGMENT_SHADER src <;>
      simp [CompileShader, hc, hne, usesUninitHandle, List.countP_cons, List.countP_append]

theorem CompileShader_uninit_pos (env : Env) (alloc : Nat) (ty : Nat) (src : List Char)
    (hv : ty ≠ GL_VERTEX_SHADER) (hf : ty ≠ GL_FRAGMENT_SHADER) :
    0 < List.countP usesUninitHandle (CompileShader env alloc ty src).2.2 := by
  have hmem : Event.glShaderSource none ∈ (CompileShader env alloc ty src).2.2 := by
    by_cases hc : env.compileOk ty src <;> simp [CompileShader, hv, hf, hc]
  exact List.countP_pos_iff.mpr ⟨_, hmem, rfl⟩

theorem CreateShaderProgram_counts (env : Env) (alloc : Nat) (vsrc fsrc : List Char) :
    List.countP isLinkEvent (CreateShaderProgram env alloc vsrc fsrc).2.2 = 1 ∧
    List.countP isUploadEvent (CreateShaderProgram env alloc vsrc fsrc).2.2 = 0 ∧
    List.countP isSdlInitEvent (CreateShaderProgram env alloc vsrc fsrc).2.2 = 0 ∧
    List.countP isTeardownEvent (CreateShaderProgram env alloc vsrc fsrc).2.2 = 0 ∧
    List.countP isDrawEvent (CreateShaderProgram env alloc vsrc fsrc).2.2 = 0 ∧
    List.countP isReadFileEvent (CreateShaderProgram env alloc vsrc fsrc).2.2 = 0 ∧
    List.countP isUseProgramEvent (CreateShaderProgram env alloc vsrc fsrc).2.2 = 0 := by
  obtain ⟨a1, a2, a3, a4, a5, a6, a7⟩ := CompileShader_counts env (alloc + 1)
    GL_VERTEX_SHADER vsrc
  obtain ⟨b1, b2, b3, b4, b5, b6, b7⟩ := CompileShader_counts env
    (CompileShader env (alloc + 1) GL_VERTEX_SHADER vsrc).2.1 GL_FRAGMENT_SHADER fsrc
  simp [CreateShaderProgram, List.countP_cons, List.countP_append, a1, a2, a3, a4, a5,
    a6, a7, b1, b2, b3, b4, b5, b6, b7, isLinkEvent, isUploadEvent, isVertexUploadEvent,
    isIndexUploadEvent, isSdlInitEvent, isTeardownEvent, isDrawEvent, isReadFileEvent,
    isUseProgramEvent]

theorem CreateShaderProgram_uninit (env : Env) (alloc : Nat) (vsrc fsrc : List Char) :
    List.countP usesUninitHandle (CreateShaderProgram env alloc vsrc fsrc).2.2 = 0 := by
  obtain ⟨nv, hnv⟩ := CompileShader_result env (alloc + 1) GL_VERTEX_SHADER vsrc (Or.inl rfl)
  obtain ⟨nf, hnf⟩ := CompileShader_result env
    (CompileShader env (alloc + 1) GL_VERTEX_SHADER vsrc).2.1 GL_FRAGMENT_SHADER fsrc
    (Or.inr rfl)
  have hv := CompileShader_uninit env (alloc + 1) GL_VERTEX_SHADER vsrc (Or.inl rfl)
  have hf := CompileShader_uninit env
    (CompileShader env (alloc + 1) GL_VERTEX_SHADER vsrc).2.1 GL_FRAGMENT_SHADER fsrc
    (Or.inr rfl)
  simp [CreateShaderProgram, List.countP_cons, List.countP_append, hv, hf, hnv, hnf,
    usesUninitHandle]

theorem VertexSpecification_counts (s : ProgState) :
    List.countP isVertexUploadEvent (VertexSpecification s).2 = 1 ∧
    List.countP isIndexUploadEvent (VertexSpecification s).2 = 1 ∧
    List.countP isSdlInitEvent (VertexSpecification s).2 = 0 ∧
    List.countP isLinkEvent (VertexSpecification s).2 = 0 ∧
    List.countP isDrawEvent (VertexSpecification s).2 = 0 ∧
    List.countP isTeardownEvent (VertexSpecification s).2 = 0 ∧
    List.countP isReadFileEvent (VertexSpecification s).2 = 0 ∧
    List.countP isUseProgramEvent (VertexSpecification s).2 = 0 := by
  simp [VertexSpecification, List.countP_cons, isVertexUploadEvent, isIndexUploadEvent,
    isSdlInitEvent, isLinkEvent, isDrawEvent, isTeardownEvent, isReadFileEvent,
    isUseProgramEvent]

theorem CreateGraphicsPipeline_counts (env : Env) (s : ProgState) :
    List.countP isLinkEvent (CreateGraphicsPipeline env s).2 = 1 ∧
    List.countP isUploadEvent (CreateGraphicsPipeline env s).2 = 0 ∧
    List.countP isSdlInitEvent (CreateGraphicsPipeline env s).2 = 0 ∧
    List.countP isTeardownEvent (CreateGraphicsPipeline env s).2 = 0 ∧
    List.countP isDrawEvent (CreateGraphicsPipeline env s).2 = 0 ∧
    List.countP isUseProgramEvent (CreateGraphicsPipeline env s).2 = 0 ∧
    (CreateGraphicsPipeline env s).2.filter isReadFileEvent =
      [Event.readFile "./shaders/vert.glsl", Event.readFile "./shaders/frag.glsl"] := by
  obtain ⟨c1, c2, c3, c4, c5, c6, c7⟩ := CreateShaderProgram_counts env s.nextGLName
    (LoadShaderAsString env.fileSystem "./shaders/vert.glsl")
    (LoadShaderAsString env.fileSystem "./shaders/frag.glsl")
  have hfil : (CreateShaderProgram env s.nextGLName
      (LoadShaderAsString env.fileSystem "./shaders/vert.glsl")
      (LoadShaderAsString env.fileSystem "./shaders/frag.glsl")).2.2.filter
      isReadFileEvent = [] :=
    List.filter_eq_nil_iff.mpr (List.countP_eq_zero.mp c6)
  simp [CreateGraphicsPipeline, List.countP_cons, List.countP_append, List.filter_append,
    c1, c2, c3, c4, c5, c6, c7, hfil, isLinkEvent, isUploadEvent, isVertexUploadEvent,
    isIndexUploadEvent, isSdlInitEvent, isTeardownEvent, isDrawEvent, isReadFileEvent,
    isUseProgramEvent]

theorem InitializeProgram_ok (env : Env) (h : envOk env) :
    InitializeProgram env initialProgState = (Except.ok (okState env), initOkTrace) := by
  obtain ⟨h1, h2, h3, h4⟩ := h
  obtain ⟨w, hw⟩ := Option.isSome_iff_exists.mp h3
  obtain ⟨c, hc⟩ := Option.isSome_iff_exists.mp h4
  simp [InitializeProgram, h1, h2, hw, hc, initialProgState, okState, initOkTrace]

theorem pipelineEntry (env : Env) :
    (CreateGraphicsPipeline env (VertexSpecification (okState env)).1).1 =
      loopEntryState env := by
  simp [CreateGraphicsPipeline, VertexSpecification, CreateShaderProgram,
    CompileShader_alloc_vert, CompileShader_alloc_frag, okState, loopEntryState,
    initialProgState]

theorem main_success (env : Env) (sched : List (List Nat)) (h : envOk env) :
    main env sched =
      (Except.ok (0, (MainLoop sched (loopEntryState env)).1),
       initOkTrace ++ (VertexSpecification (okState env)).2 ++
         (CreateGraphicsPipeline env (VertexSpecification (okState env)).1).2 ++
         (MainLoop sched (loopEntryState env)).2 ++
         [Event.sdlDestroyWindow, Event.sdlQuitCall]) := by
  have hi := InitializeProgram_ok env h
  have hp := pipelineEntry env
  simp [main, hi, hp, CleanUp]

/-! ## Helper lemmas about `LoadShaderAsString` -/

theorem splitAtNewline_length (l : List Char) :
    (splitAtNewline l).2.length ≤ l.length := by
  induction l with
  | nil => simp [splitAtNewline]
  | cons a t ih =>
    by_cases ha : a = '\n'
    · simp [splitAtNewline, ha]
    · simp only [splitAtNewline, if_neg ha, List.length_cons]
      exact Nat.le_succ_of_le ih

theorem splitNl_ne_nil (s : List Char) : splitNl s ≠ [] := by
  rcases s with _ | ⟨c, cs⟩
  · simp [splitNl]
  · by_cases hc : c = '\n'
    · simp [splitNl, hc]
    · simp only [splitNl, if_neg hc]
      rcases h : splitNl cs with _ | ⟨l, ls⟩ <;> simp

theorem splitNl_cons_ne_singleton (c : Char) (cs : List Char) :
    splitNl (c :: cs) ≠ [[]] := by
  by_cases hc : c = '\n'
  · simp only [splitNl, if_pos hc]
    intro h
    exact splitNl_ne_nil cs (List.cons.inj h).2
  · simp only [splitNl, if_neg hc]
    rcases h : splitNl cs with _ | ⟨l, ls⟩
    · simp
    · intro hh
      have h1 := (List.cons.inj hh).1
      simp at h1

theorem fileLines_nil : fileLines [] = [] := by
  simp [fileLines, splitNl]

theorem fileLines_cons (s : List Char) (hs : s ≠ []) :
    fileLines s = (splitAtNewline s).1 :: fileLines (splitAtNewline s).2 := by
  induction s with
  | nil => exact absurd rfl hs
  | cons c cs ih =>
    by_cases hc : c = '\n'
    · subst hc
      simp only [splitAtNewline, if_pos rfl, splitNl, fileLines]
      rcases hsegs : splitNl cs with _ | ⟨b, ls⟩
      · exact absurd hsegs (splitNl_ne_nil cs)
      · by_cases hlast : (b :: ls).getLast? = some [] <;> simp [hlast, hsegs]
    · rcases hcs : cs with _ | ⟨c2, cs2⟩
      · simp [fileLines, splitNl, splitAtNewline, hc]
      · rw [← hcs]
        have hcs2 : cs ≠ [] := by rw [hcs]; simp
        have ihcs := ih hcs2
        rcases hsegs : splitNl cs with _ | ⟨l, ls⟩
        · exact absurd hsegs (splitNl_ne_nil cs)
        simp only [fileLines, hsegs] at ihcs
        simp only [fileLines, splitNl, if_neg hc, hsegs, splitAtNewline]
        rcases ls with _ | ⟨y, t⟩
        · have hlne : l ≠ [] := by
            intro h0
            subst h0
            exact splitNl_cons_ne_singleton c2 cs2 (hcs ▸ hsegs)
          simp only [List.getLast?_singleton, Option.some.injEq, hlne, if_neg,
            reduceCtorEq] at ihcs ⊢
          obtain ⟨h1, h2⟩ := List.cons.inj ihcs
          simp [← h1, ← h2, hlne]
        · have hgl : ((c :: l) :: y :: t).getLast? = (y :: t).getLast? :=
            List.getLast?_cons_cons
          have hgl2 : (l :: y :: t).getLast? = (y :: t).getLast? :=
            List.getLast?_cons_cons
          by_cases hlast : (y :: t).getLast? = some []
          · rw [hgl2, if_pos hlast, List.dropLast_cons₂] at ihcs
            obtain ⟨h1, h2⟩ := List.cons.inj ihcs
            rw [hgl, if_pos hlast, List.dropLast_cons₂, ← h1, ← h2]
          · rw [hgl2, if_neg hlast] at ihcs
            obtain ⟨h1, h2⟩ := List.cons.inj ihcs
            rw [hgl, if_neg hlast, ← h1, ← h2]

theorem loadLoop_concat : ∀ (n : Nat) (s : List Char), s.length ≤ n →
    ∀ res : List Char, loadLoop s res = res ++ concatLines (fileLines s) := by
  intro n
  induction n with
  | zero =>
    intro s hs res
    have h0 : s = [] := List.length_eq_zero.mp (Nat.le_zero.mp hs)
    subst h0
    simp [loadLoop, fileLines_nil, concatLines]
  | succ n ih =>
    intro s hs res
    rcases s with _ | ⟨c, cs⟩
    · simp [loadLoop, fileLines_nil, concatLines]
    · have hlt : (splitAtNewline (c :: cs)).2.length ≤ cs.length := by
        by_cases hc : c = '\n'
        · simp [splitAtNewline, hc]
        · simp only [splitAtNewline, if_neg hc]
          exact splitAtNewline_length cs
      have hlen : (splitAtNewline (c :: cs)).2.length ≤ n :=
        le_trans hlt (Nat.succ_le_succ_iff.mp hs)
      simp only [loadLoop]
      rw [ih _ hlen, fileLines_cons (c :: cs) (by simp)]
      simp [concatLines, List.append_assoc]

/-! ## Claim theorems -/

/-- Claim C9: for every filename, `LoadShaderAsString` returns the empty string
when the file cannot be opened, and otherwise returns the concatenation of the
file's lines with exactly one newline character appended to each line; as a
total function of the file contents it never fails or throws. -/
theorem C9_load_shader (fileSystem : String → Option (List Char)) (filename : String) :
    (fileSystem filename = none → LoadShaderAsString fileSystem filename = []) ∧
    (∀ content, fileSystem filename = some content →
      LoadShaderAsString fileSystem filename = concatLines (fileLines content)) := by
  constructor
  · intro h
    simp [LoadShaderAsString, h]
  · intro content h
    simp only [LoadShaderAsString, h]
    have h2 := loadLoop_concat content.length content le_rfl []
    simpa using h2

theorem C9_load_shader_witness :
    fsDemo "nope" = none ∧ LoadShaderAsString fsDemo "nope" = [] ∧
    fsDemo "./shaders/vert.glsl" = some ['x', '\n'] ∧
    LoadShaderAsString fsDemo "./shaders/vert.glsl" = concatLines (fileLines ['x', '\n']) :=
  ⟨rfl, (C9_load_shader fsDemo "nope").1 rfl, rfl,
    (C9_load_shader fsDemo "./shaders/vert.glsl").2 ['x', '\n'] rfl⟩

/-- Claim C10: the quit flag is monotone: it starts `false`; the only write is
in `Input`, which sets it to `true` exactly when an `SDL_QUIT` event is polled
and never resets it; no other operation changes it; and once it is `true` the
loop exits at once, so it stays `true` for the rest of the execution. -/
theorem C10_quit_monotone :
    initialProgState.gQuit = false ∧
    (∀ batch s, (Input batch s).1 =
      { s with gQuit := s.gQuit || decide (SDL_QUIT ∈ batch) }) ∧
    (∀ s, (VertexSpecification s).1.gQuit = s.gQuit) ∧
    (∀ env s, (CreateGraphicsPipeline env s).1.gQuit = s.gQuit) ∧
    (∀ s, (CleanUp s).1.gQuit = s.gQuit) ∧
    (∀ env s r, (InitializeProgram env s).1 = Except.ok r → r.gQuit = s.gQuit) ∧
    (∀ sched s, s.gQuit = true → (MainLoop sched s).1.gQuit = true) := by
  refine ⟨rfl, Input_fst, fun s => rfl, fun env s => rfl, fun s => rfl, ?_, ?_⟩
  · intro env s r h
    by_cases h1 : env.sdlInitOk = false
    · simp [InitializeProgram, h1] at h
    · rcases hw : env.windowHandle with _ | w
      · simp [InitializeProgram, h1, hw] at h
      · rcases hcx : env.contextHandle with _ | cx
        · simp [InitializeProgram, h1, hw, hcx] at h
        · by_cases h4 : env.gladOk = false
          · simp [InitializeProgram, h1, hw, hcx, h4] at h
          · simp [InitializeProgram, h1, hw, hcx, h4] at h
            subst h
            rfl
  · intro sched s h
    rw [MainLoop_stopped sched s h]
    exact h

theorem C10_quit_monotone_witness :
    sDemoQuit.gQuit = true ∧ (MainLoop [[], []] sDemoQuit).1.gQuit = true :=
  ⟨rfl, C10_quit_monotone.2.2.2.2.2.2 [[], []] sDemoQuit rfl⟩

/-- Claim C8: `CompileShader` initializes its local shader handle only in the
`GL_VERTEX_SHADER` / `GL_FRAGMENT_SHADER` branches: under that precondition on
`type` no GL call in its trace reads an uninitialized handle, for any other
`type` some call does, and `CreateShaderProgram` — the only caller — invokes it
exclusively with those two types, so its whole trace never reads an
uninitialized handle. -/
theorem C8_compile_shader_types (env : Env) (alloc ty : Nat) (src vsrc fsrc : List Char) :
    ((ty = GL_VERTEX_SHADER ∨ ty = GL_FRAGMENT_SHADER) →
      List.countP usesUninitHandle (CompileShader env alloc ty src).2.2 = 0) ∧
    (ty ≠ GL_VERTEX_SHADER → ty ≠ GL_FRAGMENT_SHADER →
      0 < List.countP usesUninitHandle (CompileShader env alloc ty src).2.2) ∧
    List.countP usesUninitHandle (CreateShaderProgram env alloc vsrc fsrc).2.2 = 0 :=
  ⟨CompileShader_uninit env alloc ty src,
   CompileShader_uninit_pos env alloc ty src,
   CreateShaderProgram_uninit env alloc vsrc fsrc⟩

theorem C8_compile_shader_types_witness :
    (GL_VERTEX_SHADER = GL_VERTEX_SHADER ∨ GL_VERTEX_SHADER = GL_FRAGMENT_SHADER) ∧
    List.countP usesUninitHandle (CompileShader envDemo 0 GL_VERTEX_SHADER []).2.2 = 0 ∧
    ((0 : Nat) ≠ GL_VERTEX_SHADER ∧ (0 : Nat) ≠ GL_FRAGMENT_SHADER) ∧
    0 < List.countP usesUninitHandle (CompileShader envDemo 0 0 []).2.2 :=
  ⟨Or.inl rfl,
   (C8_compile_shader_types envDemo 0 GL_VERTEX_SHADER [] [] []).1 (Or.inl rfl),
   ⟨by decide, by decide⟩,
   (C8_compile_shader_types envDemo 0 0 [] [] []).2.1 (by decide) (by decide)⟩

/-- Claim C5 counterexample: with a schedule delivering a single `SDL_QUIT`
event, the loop does exit and the quit flag is set, but a frame is still drawn
AFTER the quit event is polled: the part of the trace from the "Goodbye!"
print (which immediately follows setting `gQuit := true`) onward contains one
indexed draw call, so "at which point the quit flag is set to true and no
further frame is drawn" is false as stated. -/
theorem C5_counterexample :
    (MainLoop [[SDL_QUIT]] sDemo).1.gQuit = true ∧
    List.countP isDrawEvent
      ((MainLoop [[SDL_QUIT]] sDemo).2.dropWhile
        (fun e => !(e == Event.print "Goodbye!"))) = 1 := by
  constructor <;> rfl

/-- Claim C5 (amended): starting with the quit flag clear, the loop terminates
if and only if some polled batch contains an `SDL_QUIT` event, at which point
the quit flag is set to true; the iteration that polls the quit event still
completes and draws its frame, so the number of draw calls equals the number of
iterations up to and including the quit iteration. -/
theorem C5_amended (sched : List (List Nat)) (s : ProgState) (h : s.gQuit = false) :
    ((MainLoop sched s).1.gQuit = true ↔ ∃ b ∈ sched, SDL_QUIT ∈ b) ∧
    List.countP isDrawEvent (MainLoop sched s).2 = itersRun sched :=
  ⟨MainLoop_quit_iff sched s h, MainLoop_draw_count sched s h⟩

theorem C5_amended_witness :
    sDemo.gQuit = false ∧
    (((MainLoop [[SDL_QUIT]] sDemo).1.gQuit = true ↔
        ∃ b ∈ [[SDL_QUIT]], SDL_QUIT ∈ b) ∧
      List.countP isDrawEvent (MainLoop [[SDL_QUIT]] sDemo).2 = itersRun [[SDL_QUIT]]) :=
  ⟨rfl, C5_amended [[SDL_QUIT]] sDemo rfl⟩

/-- Claim C3: while the quit flag is false, every loop iteration performs, in
order: poll all pending events (each one checked for `SDL_QUIT`, ending with an
empty poll), clear the framebuffer (after disabling depth test/culling and
setting viewport and clear color), bind the shader program, bind the vertex
array and its vertex buffer, issue exactly one indexed draw call, and swap the
window buffers; then the loop repeats on the remaining schedule. -/
theorem C3_frame_sequence (batch : List Nat) (rest : List (List Nat)) (s : ProgState)
    (h : s.gQuit = false) :
    MainLoop (batch :: rest) s =
      ((MainLoop rest (Input batch s).1).1,
       (Input batch s).2 ++ PreDraw (Input batch s).1 ++ Draw (Input batch s).1 ++
         [Event.sdlGLSwapWindow] ++ (MainLoop rest (Input batch s).1).2) ∧
    (Input batch s).2.filterMap pollReturn = batch.map some ++ [none] ∧
    PreDraw (Input batch s).1 ++ Draw (Input batch s).1 ++ [Event.sdlGLSwapWindow] =
      [Event.glDisable GL_DEPTH_TEST,
       Event.glDisable GL_CULL_FACE,
       Event.glViewport 0 0 s.gScreenWidth s.gScreenHeight,
       Event.glClearColor (3/100) (5/100) (27/100) 1,
       Event.glClear (GL_DEPTH_BUFFER_BIT ||| GL_COLOR_BUFFER_BIT),
       Event.glUseProgram s.gGraphicsPipelineShaderProgram,
       Event.glBindVertexArray s.gVertexArrayObject,
       Event.glBindBuffer GL_ARRAY_BUFFER s.gVertexBufferObject,
       Event.glDrawElements GL_TRIANGLES 6 GL_UNSIGNED_INT,
       Event.glUseProgram 0,
       Event.sdlGLSwapWindow] ∧
    List.countP isDrawEvent
      ((Input batch s).2 ++ PreDraw (Input batch s).1 ++ Draw (Input batch s).1 ++
        [Event.sdlGLSwapWindow]) = 1 := by
  have hq : ¬ (s.gQuit = true) := by simp [h]
  refine ⟨by simp only [MainLoop, if_neg hq], Input_polls batch s, ?_, ?_⟩
  · simp [PreDraw, Draw, Input_fst]
  · have h1 : List.countP isDrawEvent (Input batch s).2 = 0 :=
      Input_countP_zero _ (fun o => rfl) (fun m => rfl) batch s
    simp [List.countP_append, h1, PreDraw, Draw, List.countP_cons, isDrawEvent]

theorem C3_frame_sequence_witness :
    sDemo.gQuit = false ∧
    List.countP isDrawEvent
      ((Input [] sDemo).2 ++ PreDraw (Input [] sDemo).1 ++ Draw (Input [] sDemo).1 ++
        [Event.sdlGLSwapWindow]) = 1 :=
  ⟨rfl, (C3_frame_sequence [] [] sDemo rfl).2.2.2⟩

/-- Claim C2 counterexample: when `SDL_Init` fails, the program prints the
message and then immediately terminates with exit status 1 — the trace ends at
the print and nothing further executes — contradicting "the program does not
recover in any other way than printing a message and continuing". -/
theorem C2_counterexample :
    (main envSdlFail []).1 = Except.error 1 ∧
    (main envSdlFail []).2 =
      [Event.sdlInit, Event.print "SDL2 could not initialize video subsystem"] := by
  constructor <;> rfl

/-- Claim C2 (amended): every initialization failure (SDL init, window
creation, OpenGL context creation, glad load) prints its message and terminates
the program via `exit(1)`; only shader-compilation failure is handled by
printing a message and continuing — when all initialization steps succeed,
`main` runs to a normal exit with status 0 even if compilation fails, printing
the compile error message. -/
theorem C2_amended (env : Env) (sched : List (List Nat)) :
    (env.sdlInitOk = false →
      (main env sched).1 = Except.error 1 ∧
      Event.print "SDL2 could not initialize video subsystem" ∈ (main env sched).2) ∧
    (env.sdlInitOk = true → env.windowHandle = none →
      (main env sched).1 = Except.error 1 ∧
      Event.print "SDL Window was not able to be created" ∈ (main env sched).2) ∧
    (env.sdlInitOk = true → env.windowHandle ≠ none → env.contextHandle = none →
      (main env sched).1 = Except.error 1 ∧
      Event.print "OpenGL context could not be created" ∈ (main env sched).2) ∧
    (env.sdlInitOk = true → env.windowHandle ≠ none → env.contextHandle ≠ none →
      env.gladOk = false →
      (main env sched).1 = Except.error 1 ∧
      Event.print "glad was not initialized" ∈ (main env sched).2) ∧
    (envOk env →
      (∃ fS, (main env sched).1 = Except.ok (0, fS)) ∧
      (env.compileOk GL_VERTEX_SHADER
          (LoadShaderAsString env.fileSystem "./shaders/vert.glsl") = false →
        Event.print ("ERROR: GL_VERTEX_SHADER compilation failed!\n" ++
          env.compileLog GL_VERTEX_SHADER
            (LoadShaderAsString env.fileSystem "./shaders/vert.glsl") ++ "\n") ∈
          (main env sched).2)) := by
  refine ⟨?_, ?_, ?_, ?_, ?_⟩
  · intro h1
    constructor <;> simp [main, InitializeProgram, h1]
  · intro h1 h2
    constructor <;> simp [main, InitializeProgram, h1, h2]
  · intro h1 h2 h3
    obtain ⟨w, hw⟩ := Option.ne_none_iff_exists.mp h2
    constructor <;> simp [main, InitializeProgram, h1, h3, ← hw]
  · intro h1 h2 h3 h4
    obtain ⟨w, hw⟩ := Option.ne_none_iff_exists.mp h2
    obtain ⟨cx, hcx⟩ := Option.ne_none_iff_exists.mp h3
    constructor <;> simp [main, InitializeProgram, h1, h4, ← hw, ← hcx]
  · intro h
    rw [main_success env sched h]
    refine ⟨⟨_, rfl⟩, ?_⟩
    intro hfail
    simp [CreateGraphicsPipeline, CreateShaderProgram, CompileShader, hfail,
      List.mem_append, List.mem_cons]

theorem C2_amended_witness :
    envSdlFail.sdlInitOk = false ∧
    ((main envSdlFail []).1 = Except.error 1 ∧
      Event.print "SDL2 could not initialize video subsystem" ∈ (main envSdlFail []).2) :=
  ⟨rfl, (C2_amended envSdlFail []).1 rfl⟩

theorem MainLoop_countP_zero (p : Event → Bool)
    (himp : ∀ e : Event, p e = true → isSetupOrTeardownEvent e = true)
    (sched : List (List Nat)) (s : ProgState) :
    List.countP p (MainLoop sched s).2 = 0 :=
  countP_zero_of_setup_zero p himp (MainLoop_countP_setup sched s)

theorem MainLoop_filter_nil (p : Event → Bool)
    (himp : ∀ e : Event, p e = true → isSetupOrTeardownEvent e = true)
    (sched : List (List Nat)) (s : ProgState) :
    (MainLoop sched s).2.filter p = [] :=
  List.filter_eq_nil_iff.mpr
    (List.countP_eq_zero.mp (MainLoop_countP_zero p himp sched s))

theorem VertexSpecification_filter_upload (s : ProgState) :
    (VertexSpecification s).2.filter isUploadEvent =
      [Event.glBufferDataF GL_ARRAY_BUFFER (vertexData.length * 4) vertexData GL_STATIC_DRAW,
       Event.glBufferDataU GL_ELEMENT_ARRAY_BUFFER (indexBufferData.length * 4)
         indexBufferData GL_STATIC_DRAW] := by
  simp [VertexSpecification, List.filter_cons, isUploadEvent, isVertexUploadEvent,
    isIndexUploadEvent]

theorem countP_useProgramBeq_zero {l : List Event} (pid : Nat)
    (hz : List.countP isUseProgramEvent l = 0) :
    List.countP (fun e => e == Event.glUseProgram pid) l = 0 :=
  Nat.le_zero.mp (hz ▸ List.countP_mono_left (fun x _ hx => by
    have hx2 : x = Event.glUseProgram pid := eq_of_beq hx
    subst hx2
    rfl))

/-- Claim C1: under a successful initialization environment the program
performs exactly the five phases, in order, each once: the trace splits into
initialization (containing the one `SDL_Init`), buffer upload (exactly one
vertex upload and one index upload), shader compilation/linking (exactly one
`glLinkProgram`), the render loop (performing no setup or teardown call), and
teardown (`SDL_DestroyWindow` then `SDL_Quit`, ending the trace); uploads and
linking happen only in their own phase, before the loop, and never recur. -/
theorem C1_five_phases (env : Env) (sched : List (List Nat)) (h : envOk env) :
    phaseDecomposition (main env sched) := by
  rw [main_success env sched h]
  obtain ⟨v1, v2, v3, v4, v5, v6, v7, v8⟩ := VertexSpecification_counts (okState env)
  obtain ⟨g1, g2, g3, g4, g5, g6, g7⟩ :=
    CreateGraphicsPipeline_counts env (VertexSpecification (okState env)).1
  refine ⟨initOkTrace, (VertexSpecification (okState env)).2,
    (CreateGraphicsPipeline env (VertexSpecification (okState env)).1).2,
    (MainLoop sched (loopEntryState env)).2,
    [Event.sdlDestroyWindow, Event.sdlQuitCall],
    (MainLoop sched (loopEntryState env)).1,
    rfl, by decide, by decide, by decide, by decide, by decide,
    v1, v2, v3, v4, v5, v6,
    g1, g3, g2, g5, g4,
    MainLoop_countP_zero isSdlInitEvent sdlInit_imp_setup sched (loopEntryState env),
    MainLoop_countP_zero isUploadEvent upload_imp_setup sched (loopEntryState env),
    MainLoop_countP_zero isLinkEvent link_imp_setup sched (loopEntryState env),
    MainLoop_countP_zero isTeardownEvent teardown_imp_setup sched (loopEntryState env),
    rfl⟩

theorem C1_five_phases_witness :
    envOk envDemo ∧ phaseDecomposition (main envDemo [[SDL_QUIT]]) :=
  ⟨⟨rfl, rfl, rfl, rfl⟩, C1_five_phases envDemo [[SDL_QUIT]] ⟨rfl, rfl, rfl, rfl⟩⟩

/-- Claim C4: the uploaded geometry is the single hardcoded quad: exactly
4 vertices of 6 floats each (3 position components at offset 0, then 3 color
components at offset 12, stride 24 bytes), the index buffer is exactly
`{2, 0, 1, 3, 2, 1}` with every index below 4, the only uploads in any run's
trace are these two constant buffers (for every environment and schedule, so no
input configures them), and every draw call is
`glDrawElements(GL_TRIANGLES, 6, GL_UNSIGNED_INT, 0)`. -/
theorem C4_fixed_geometry (env : Env) (sched : List (List Nat)) (h : envOk env) :
    fixedGeometry (main env sched) := by
  rw [main_success env sched h]
  obtain ⟨v1, v2, v3, v4, v5, v6, v7, v8⟩ := VertexSpecification_counts (okState env)
  obtain ⟨g1, g2, g3, g4, g5, g6, g7⟩ :=
    CreateGraphicsPipeline_counts env (VertexSpecification (okState env)).1
  have hfil3 : (CreateGraphicsPipeline env (VertexSpecification (okState env)).1).2.filter
      isUploadEvent = [] :=
    List.filter_eq_nil_iff.mpr (List.countP_eq_zero.mp g2)
  have hfil4 : (MainLoop sched (loopEntryState env)).2.filter isUploadEvent = [] :=
    MainLoop_filter_nil isUploadEvent upload_imp_setup sched (loopEntryState env)
  refine ⟨by decide, rfl, by decide, ?_, ?_, ?_, ?_⟩
  · simp only [List.filter_append, hfil3, hfil4,
      VertexSpecification_filter_upload (okState env)]
    rfl
  · simp [List.mem_append, VertexSpecification]
  · simp [List.mem_append, VertexSpecification]
  · intro e he hd
    simp only [List.mem_append] at he
    rcases he with (((he | he) | he) | he) | he
    · exact absurd hd (by
        have h0 : List.countP isDrawEvent initOkTrace = 0 := by decide
        simpa using List.countP_eq_zero.mp h0 e he)
    · exact absurd hd (by simpa using List.countP_eq_zero.mp v5 e he)
    · exact absurd hd (by simpa using List.countP_eq_zero.mp g5 e he)
    · exact (MainLoop_mem sched (loopEntryState env) e he).2 hd
    · exact absurd hd (by
        have h0 : List.countP isDrawEvent [Event.sdlDestroyWindow, Event.sdlQuitCall] = 0 :=
          by decide
        simpa using List.countP_eq_zero.mp h0 e he)

theorem C4_fixed_geometry_witness :
    envOk envDemo ∧ fixedGeometry (main envDemo [[SDL_QUIT]]) :=
  ⟨⟨rfl, rfl, rfl, rfl⟩, C4_fixed_geometry envDemo [[SDL_QUIT]] ⟨rfl, rfl, rfl, rfl⟩⟩

/-- Claim C6: the shader pair is fixed: the only file reads in any run are the
two constant paths `./shaders/vert.glsl` and `./shaders/frag.glsl` (in that
order), linking happens exactly once and before any draw call, the linked
program object is the one stored in the single global pipeline handle (value 4
under the deterministic name allocator), that handle still holds it at exit,
and every frame binds it exactly once. -/
theorem C6_fixed_shaders (env : Env) (sched : List (List Nat)) (h : envOk env) :
    fixedShaders sched (main env sched) := by
  rw [main_success env sched h]
  obtain ⟨v1, v2, v3, v4, v5, v6, v7, v8⟩ := VertexSpecification_counts (okState env)
  obtain ⟨g1, g2, g3, g4, g5, g6, g7⟩ :=
    CreateGraphicsPipeline_counts env (VertexSpecification (okState env)).1
  have hfil2 : (VertexSpecification (okState env)).2.filter isReadFileEvent = [] :=
    List.filter_eq_nil_iff.mpr (List.countP_eq_zero.mp v7)
  have hfil4 : (MainLoop sched (loopEntryState env)).2.filter isReadFileEvent = [] :=
    MainLoop_filter_nil isReadFileEvent readFile_imp_setup sched (loopEntryState env)
  have hl4 : List.countP isLinkEvent (MainLoop sched (loopEntryState env)).2 = 0 :=
    MainLoop_countP_zero isLinkEvent link_imp_setup sched (loopEntryState env)
  have hu2 : List.countP (fun e => e == Event.glUseProgram 4)
      (VertexSpecification (okState env)).2 = 0 := countP_useProgramBeq_zero 4 v8
  have hu3 : List.countP (fun e => e == Event.glUseProgram 4)
      (CreateGraphicsPipeline env (VertexSpecification (okState env)).1).2 = 0 :=
    countP_useProgramBeq_zero 4 g6
  have hu4 : List.countP (fun e => e == Event.glUseProgram 4)
      (MainLoop sched (loopEntryState env)).2 = itersRun sched :=
    MainLoop_useProgram_count sched (loopEntryState env) 4 rfl rfl (by decide)
  refine ⟨?_, ?_, ?_, ?_, ?_, ?_⟩
  · simp only [List.filter_append, hfil2, hfil4, g7]
    decide
  · simp only [List.countP_append, v4, g1, hl4]
    decide
  · refine ⟨initOkTrace ++ (VertexSpecification (okState env)).2 ++
      (CreateGraphicsPipeline env (VertexSpecification (okState env)).1).2,
      (MainLoop sched (loopEntryState env)).2 ++
        [Event.sdlDestroyWindow, Event.sdlQuitCall], by simp, ?_, ?_, ?_⟩
    · simp only [List.countP_append, v4, g1]
      decide
    · simp only [List.countP_append, v5, g5]
      decide
    · simp only [List.countP_append, hl4]
      decide
  · simp [List.mem_append, CreateGraphicsPipeline, CreateShaderProgram,
      VertexSpecification, okState, initialProgState]
  · simp only [List.countP_append, hu2, hu3, hu4]
    have hu1 : List.countP (fun e => e == Event.glUseProgram 4) initOkTrace = 0 := by decide
    have hu5 : List.countP (fun e => e == Event.glUseProgram 4)
        [Event.sdlDestroyWindow, Event.sdlQuitCall] = 0 := by decide
    simp [hu1, hu5]
  · intro r hr
    simp only [Except.ok.injEq, Prod.mk.injEq] at hr
    obtain ⟨q, hq⟩ := MainLoop_state sched (loopEntryState env)
    rw [← hr.2, hq]
    rfl

theorem C6_fixed_shaders_witness :
    envOk envDemo ∧ fixedShaders [[SDL_QUIT]] (main envDemo [[SDL_QUIT]]) :=
  ⟨⟨rfl, rfl, rfl, rfl⟩, C6_fixed_shaders envDemo [[SDL_QUIT]] ⟨rfl, rfl, rfl, rfl⟩⟩

/-- Claim C7: teardown consists exactly of destroying the window and quitting
SDL, at the very end of the trace; `CleanUp` writes no program state, so the
four global GPU handles and the window/context handles are unchanged from
their setup values in the final state, and `main` returns 0. -/
theorem C7_teardown (env : Env) (sched : List (List Nat)) (h : envOk env) :
    teardownUnchanged env (main env sched) := by
  rw [main_success env sched h]
  obtain ⟨v1, v2, v3, v4, v5, v6, v7, v8⟩ := VertexSpecification_counts (okState env)
  obtain ⟨g1, g2, g3, g4, g5, g6, g7⟩ :=
    CreateGraphicsPipeline_counts env (VertexSpecification (okState env)).1
  have ht4 : List.countP isTeardownEvent (MainLoop sched (loopEntryState env)).2 = 0 :=
    MainLoop_countP_zero isTeardownEvent teardown_imp_setup sched (loopEntryState env)
  obtain ⟨q, hq⟩ := MainLoop_state sched (loopEntryState env)
  refine ⟨fun s => rfl, (MainLoop sched (loopEntryState env)).1,
    initOkTrace ++ (VertexSpecification (okState env)).2 ++
      (CreateGraphicsPipeline env (VertexSpecification (okState env)).1).2 ++
      (MainLoop sched (loopEntryState env)).2,
    by simp, ?_, ?_, ?_, ?_, ?_, ?_, ?_⟩
  · simp only [List.countP_append, v6, g4, ht4]
    decide
  · rw [hq]; rfl
  · rw [hq]; rfl
  · rw [hq]; rfl
  · rw [hq]; rfl
  · rw [hq]; rfl
  · rw [hq]; rfl

theorem C7_teardown_witness :
    envOk envDemo ∧ teardownUnchanged envDemo (main envDemo [[SDL_QUIT]]) :=
  ⟨⟨rfl, rfl, rfl, rfl⟩, C7_teardown envDemo [[SDL_QUIT]] ⟨rfl, rfl, rfl, rfl⟩⟩

end Gloom
